import Mathlib

/-!
Verification of the LS2D ERA5 forcing engine (`src/read_ERA5.py` and
`src/download_ERA5.py`) against its natural-language specification.

Conventions of the shallow embedding:

* A 4-D gridded field is modelled per (time, vertical-level) slab as a total
  function `Slab := ℤ → ℤ → ℚ` of the latitude index `j` and the longitude
  index `i`.  Every operation of `Read_ERA.calculate_forcings` is pointwise in
  time and vertical level, so one theorem quantified over slabs covers every
  time step and every level.
* The dynamically built slice accessor `Slice.__call__(j, i)` of the source
  shifts the averaging window by `(j, i)` grid points; on slabs this is plain
  index translation, e.g. the value of `S[s(0,-1)]` at window point `(j, i)`
  is `S j (i - 1)`.
* The ERA5 latitude axis is stored north-to-south (the code never flips it),
  so a step of `+1` in the latitude index is a step of one grid spacing
  southwards; the operator `ddy` below is exactly the centered difference the
  code applies for all its y-derivatives, and on the north-to-south axis it is
  the northward (physical `d/dy`) derivative.
* Boundary behaviour of numpy slicing (silent clipping, wrap-around of
  negative indices) is modelled separately on `List`-based grids (`pySlice`).
* Fallible steps (a Python `assert`, `IndexError`, `NameError`, `sys.exit`)
  are modelled with `Option`/`Except` or an explicit error component.
-/

namespace LS2D

/-- Modelled from the spec: `finite_difference.grad2c` is imported by
`read_ERA5.py` but `finite_difference.py` is not under `src/`.  The spec
prescribes a centered finite-difference derivative "using neighbor offsets at
±1 grid step (2nd order)"; `m` is the field value one step below the
evaluation point, `p` one step above. -/
def grad2c (m p d : ℚ) : ℚ := (p - m) / (2 * d)

/-- Modelled from the spec: `finite_difference.grad4c` is not under `src/`.
The spec prescribes "±1 and ±2 grid steps with the standard 4-point centered
coefficients (4th order)"; the arguments are the field values at offsets
`-2, -1, +1, +2` grid steps. -/
def grad4c (mm m p pp d : ℚ) : ℚ := (mm - 8 * m + 8 * p - pp) / (12 * d)

/-- One (time, vertical-level) slab of a gridded field, as a total function of
the latitude index and the longitude index. -/
abbrev Slab := ℤ → ℤ → ℚ

/-- Stencil order selected by the `method` argument of
`Read_ERA.calculate_forcings`: `'2nd'` or `'4th'`. -/
inductive FDMethod
  | ord2
  | ord4

/-- X-derivative slab as built in `calculate_forcings`:
`fd.grad2c(S[s(0,-1)], S[s(0,+1)], dx)` for 2nd order and
`fd.grad4c(S[s(0,-2)], S[s(0,-1)], S[s(0,+1)], S[s(0,+2)], dx)` for 4th. -/
def ddx : FDMethod → Slab → ℚ → Slab
  | FDMethod.ord2, S, dx => fun j i => grad2c (S j (i - 1)) (S j (i + 1)) dx
  | FDMethod.ord4, S, dx => fun j i =>
      grad4c (S j (i - 2)) (S j (i - 1)) (S j (i + 1)) (S j (i + 2)) dx

/-- Y-derivative slab as built in `calculate_forcings`:
`fd.grad2c(S[s(+1,0)], S[s(-1,0)], dy)` for 2nd order and
`fd.grad4c(S[s(+2,0)], S[s(+1,0)], S[s(-1,0)], S[s(-2,0)], dy)` for 4th.
This exact operator is used both for the advective tendencies and for the
geostrophic wind. -/
def ddy : FDMethod → Slab → ℚ → Slab
  | FDMethod.ord2, S, dy => fun j i => grad2c (S (j + 1) i) (S (j - 1) i) dy
  | FDMethod.ord4, S, dy => fun j i =>
      grad4c (S (j + 2) i) (S (j + 1) i) (S (j - 1) i) (S (j - 2) i) dy

/-- Arithmetic mean over the averaging window
`[jc - n_av, jc + n_av] × [ic - n_av, ic + n_av]`: the `.mean(axis=(2,3))` of
the source applied to the `center4d` slice built from `istart = i - n_av`,
`iend = i + n_av + 1`, `jstart = j - n_av`, `jend = j + n_av + 1`. -/
def winMean (jc ic : ℤ) (n : ℕ) (g : Slab) : ℚ :=
  (∑ j in Finset.Icc (jc - n) (jc + n), ∑ i in Finset.Icc (ic - n) (ic + n), g j i) /
    ((2 * n + 1 : ℚ) ^ 2)

/-- Advective tendency of a scalar slab `S` as computed by
`calculate_forcings` (lines 267–277 for 2nd order, 288–298 for 4th): the
window mean of
`-u[s(0,0)] * grad(S[s(0,-1)], S[s(0,+1)], dx) -
 -v[s(0,0)] * grad(S[s(+1,0)], S[s(-1,0)], dy)`,
including the source's double negation of the `v` term. -/
def dt_advec (m : FDMethod) (u v S : Slab) (jc ic : ℤ) (n : ℕ) (dx dy : ℚ) : ℚ :=
  winMean jc ic n (fun j i => -(u j i) * ddx m S dx j i - -(v j i) * ddy m S dy j i)

/-- Advective tendency as the spec states it: the window mean of
`-u·(dS/dx) - v·(dS/dy)` where both derivatives are the centered differences
of the chosen order — `ddx` and `ddy`, the same operators the code itself uses
for the geostrophic wind. -/
def advec_spec (m : FDMethod) (u v S : Slab) (jc ic : ℤ) (n : ℕ) (dx dy : ℚ) : ℚ :=
  winMean jc ic n (fun j i => -(u j i) * ddx m S dx j i - v j i * ddy m S dy j i)

/-- Modelled from the spec: `IFS_tools.grav` is imported by `read_ERA5.py` but
`IFS_tools.py` is not under `src/`; standard gravitational acceleration.  No
claim below depends on its numeric value. -/
def grav : ℚ := 9.80665

/-- Coriolis parameter as set in `Read_ERA.__init__` (line 201):
`self.fc = 2 * 7.2921e-5 * np.sin(np.deg2rad(central_lat))`.  The
floating-point trigonometric evaluation `np.sin(np.deg2rad(lat))` is
abstracted as its value `sinlat`; its sign is the sign of the latitude (the
hemisphere) for `-90 ≤ lat ≤ 90`. -/
def coriolis_parameter (sinlat : ℚ) : ℚ :=
  2 * 7.2921e-5 * sinlat

/-- Rotation rate of the Earth, the spec's `Ω` (numerically the code's
literal `7.2921e-5`). -/
def Omega : ℚ := 7.2921e-5

/-- Geostrophic `vg` on a pressure-level slab as computed by
`calculate_forcings` (lines 280 and 301):
`(IFS_tools.grav / fc * grad(z_p[s(0,-1)], z_p[s(0,+1)], dx)).mean(...)`. -/
def vg_p (m : FDMethod) (Zp : Slab) (jc ic : ℤ) (n : ℕ) (dx fc : ℚ) : ℚ :=
  winMean jc ic n (fun j i => grav / fc * ddx m Zp dx j i)

/-- Geostrophic `ug` on a pressure-level slab as computed by
`calculate_forcings` (lines 281 and 302):
`(-IFS_tools.grav / fc * grad(z_p[s(+1,0)], z_p[s(-1,0)], dy)).mean(...)`. -/
def ug_p (m : FDMethod) (Zp : Slab) (jc ic : ℤ) (n : ℕ) (dy fc : ℚ) : ℚ :=
  winMean jc ic n (fun j i => -grav / fc * ddy m Zp dy j i)

/-- Geostrophic `ug` from the spec's words: window mean of
`-(g/f)·(dZ/dy)` with `dZ/dy` the centered difference of the chosen order. -/
def ug_spec (m : FDMethod) (Zp : Slab) (jc ic : ℤ) (n : ℕ) (dy fc : ℚ) : ℚ :=
  winMean jc ic n (fun j i => -(grav / fc) * ddy m Zp dy j i)

/-- Geostrophic `vg` from the spec's words: window mean of
`(g/f)·(dZ/dx)` with `dZ/dx` the centered difference of the chosen order. -/
def vg_spec (m : FDMethod) (Zp : Slab) (jc ic : ℤ) (n : ℕ) (dx fc : ℚ) : ℚ :=
  winMean jc ic n (fun j i => grav / fc * ddx m Zp dx j i)

/-- Constant-zero slab, used as a concrete wind field. -/
def slab0 : Slab := fun _ _ => 0

/-- Constant-one slab, used as a concrete wind field. -/
def slab1 : Slab := fun _ _ => 1

/-- Slab whose value is the latitude index, a concrete scalar field with a
nonzero meridional gradient. -/
def slabJ : Slab := fun j _ => (j : ℚ)

/-- Piecewise-linear interpolation with end-segment extrapolation: the model
of `scipy.interpolate.interp1d(xs, ys, fill_value='extrapolate')` applied at
lines 333–334 to put the geostrophic wind onto the model-level mean pressures.
The table is the ascending list of `(pressure, geostrophic wind)` nodes
(scipy sorts its abscissae; `self.p_p` is stored descending).  Inside the
table the value is the linear interpolant of the bracketing nodes; beyond
either end it is the linear extrapolation of the outermost segment, which is
what `fill_value='extrapolate'` provides (needed when `ps > 1000 hPa`). -/
def linterp : List (ℚ × ℚ) → ℚ → ℚ
  | [], _ => 0
  | [(_, y0)], _ => y0
  | [(x0, y0), (x1, y1)], x => y0 + (x - x0) * (y1 - y0) / (x1 - x0)
  | (x0, y0) :: (x1, y1) :: q :: r, x =>
      if x ≤ x1 then y0 + (x - x0) * (y1 - y0) / (x1 - x0)
      else linterp ((x1, y1) :: q :: r) x

/-- Last two nodes of an interpolation table; they bound the upper
extrapolation segment. -/
def lastTwo : List (ℚ × ℚ) → Option ((ℚ × ℚ) × (ℚ × ℚ))
  | [] => none
  | [_] => none
  | [a, b] => some (a, b)
  | _ :: b :: q :: r => lastTwo (b :: q :: r)

/-- Full-level pressure as computed at dataset load (`Read_ERA.__init__`,
line 185): `self.p = 0.5 * (self.ph[:,1:,:,:] + self.ph[:,:-1:,:])`, per
(time, lat, lon) column, with `ph` the half-level pressure profile. -/
def p_full (ph : ℕ → ℚ) : ℕ → ℚ := fun k => 0.5 * (ph (k + 1) + ph k)

/-- Full-level geopotential height as computed at dataset load (line 186):
`self.z = 0.5 * (self.zh[:,1:,:,:] + self.zh[:,:-1:,:])`. -/
def z_full (zh : ℕ → ℚ) : ℕ → ℚ := fun k => 0.5 * (zh (k + 1) + zh k)

/-- Time-axis consistency check of `Read_ERA.__init__` (line 116):
`assert np.all(self.time == self.time_fc), 'Analysis and forecast times are
not synced'`.  For the selected time axes `np.all(a == b)` is elementwise
equality, i.e. list equality; a failing `assert` raises synchronously,
modelled as `Except.error` carrying the assertion message. -/
def checkTimesSynced (time time_fc : List ℚ) : Except String Unit :=
  if time = time_fc then Except.ok ()
  else Except.error "Analysis and forecast times are not synced"

/-- Dataset ingestion step around the time-axis check: `Read_ERA.__init__`
contains no handler, so a failing check aborts ingestion and the error
propagates unchanged to the caller. -/
def ingestTimes (time time_fc : List ℚ) : Except String (List ℚ) :=
  match checkTimesSynced time time_fc with
  | Except.ok _ => Except.ok time
  | Except.error e => Except.error e

/-- Path normalisation of `Read_ERA.__init__` (lines 73–74):
`if settings['ERA5_path'][-1] != '/': settings['ERA5_path'] += '/'`.  The
string is modelled as its list of characters and the result is the value
stored back into the caller's settings dictionary; `none` models the
`IndexError` that `path[-1]` raises on an empty value. -/
def read_era_path (path : List Char) : Option (List Char) :=
  match path.getLast? with
  | none => none
  | some c => if c = '/' then some path else some (path ++ ['/'])

/-- Path normalisation of `download_ERA5` (lines 156–160): the function first
checks `os.path.isdir` and exits via `sys.exit()` when the output directory
does not exist (modelled as `none` for `isdir = false`); otherwise it performs
the same in-place trailing-slash normalisation as `Read_ERA.__init__`. -/
def download_era_path (isdir : Bool) (path : List Char) : Option (List Char) :=
  if isdir then read_era_path path else none

/-- Insertion of one node into a table that is ascending in its first
component. -/
def insertByFst (p : ℚ × ℚ) : List (ℚ × ℚ) → List (ℚ × ℚ)
  | [] => [p]
  | q :: r => if p.1 ≤ q.1 then p :: q :: r else q :: insertByFst p r

/-- Ascending insertion sort of an interpolation table by its first
component, modelling scipy's internal argsort of the abscissae
(`assume_sorted` defaults to `False`; `self.p_p` is stored descending). -/
def sortByFst : List (ℚ × ℚ) → List (ℚ × ℚ)
  | [] => []
  | p :: r => insertByFst p (sortByFst r)

/-- Interpolation table of lines 333–334: each pressure level paired with the
per-level window-mean geostrophic wind component, sorted ascending in
pressure. -/
def geoTable (pp : List ℚ) (f : ℕ → ℚ) : List (ℚ × ℚ) :=
  sortByFst (pp.enum.map fun e => (e.2, f e.1))

/-- Modelled state of a `Read_ERA` instance at one (time, vertical-level)
slab: the fields read or derived in `__init__` — read-only as far as
`calculate_forcings` is concerned — plus the attributes `calculate_forcings`
creates (`none` until a call sets them).  `z_p` holds one slab per pressure
level and `p_p` the pressure-level values (`np.flip(level) * 100`);
`i`, `j` are the nearest-gridpoint indices and `fc` the Coriolis parameter of
`__init__`. -/
structure EraState where
  i : ℤ
  j : ℤ
  fc : ℚ
  u : Slab
  v : Slab
  w : Slab
  T : Slab
  q : Slab
  thl : Slab
  qt : Slab
  p : Slab
  z : Slab
  rho : Slab
  z_p : ℕ → Slab
  p_p : List ℚ
  ps : Slab
  wths : Slab
  wqs : Slab
  cc : Slab
  z0m : Slab
  z0h : Slab
  lats : ℤ → ℚ
  lons : ℤ → ℚ
  thl_mean : Option ℚ
  qt_mean : Option ℚ
  u_mean : Option ℚ
  v_mean : Option ℚ
  p_mean : Option ℚ
  z_mean : Option ℚ
  dtthl_advec : Option ℚ
  dtqt_advec : Option ℚ
  dtu_advec : Option ℚ
  dtv_advec : Option ℚ
  ug : Option ℚ
  vg : Option ℚ
  dtu_coriolis : Option ℚ
  dtv_coriolis : Option ℚ

/-- Body of a successful `Read_ERA.calculate_forcings` call (a supported
stencil order) per (time, vertical-level) slab.  The grid spacings `dx`, `dy`
of lines 259–260 are taken as arguments (they come from the great-circle
helpers of the absent `spatial_tools` module).  The window means of lines
234–256 are stored, then the advective tendencies and the per-pressure-level
geostrophic wind of the selected order; `ug`, `vg` are the extrapolating
linear interpolants over the sorted `(p_p, value)` table queried at the mean
pressure (lines 329–334), and the Coriolis tendencies of lines 337–338 are
`+fc*(v_mean - vg)` and `-fc*(u_mean - ug)`.  The second (raised-error)
component is `none`. -/
def calcBranch (m : FDMethod) (s : EraState) (n : ℕ) (dx dy : ℚ) :
    EraState × Option String :=
  let jc := s.j
  let ic := s.i
  let p_mean_v := winMean jc ic n s.p
  let u_mean_v := winMean jc ic n s.u
  let v_mean_v := winMean jc ic n s.v
  let ugv := linterp (geoTable s.p_p fun l => ug_p m (s.z_p l) jc ic n dy s.fc) p_mean_v
  let vgv := linterp (geoTable s.p_p fun l => vg_p m (s.z_p l) jc ic n dx s.fc) p_mean_v
  ({ s with
      thl_mean := some (winMean jc ic n s.thl),
      qt_mean := some (winMean jc ic n s.qt),
      u_mean := some u_mean_v, v_mean := some v_mean_v,
      p_mean := some p_mean_v, z_mean := some (winMean jc ic n s.z),
      dtthl_advec := some (dt_advec m s.u s.v s.thl jc ic n dx dy),
      dtqt_advec := some (dt_advec m s.u s.v s.qt jc ic n dx dy),
      dtu_advec := some (dt_advec m s.u s.v s.u jc ic n dx dy),
      dtv_advec := some (dt_advec m s.u s.v s.v jc ic n dx dy),
      ug := some ugv, vg := some vgv,
      dtu_coriolis := some (s.fc * (v_mean_v - vgv)),
      dtv_coriolis := some (-s.fc * (u_mean_v - ugv)) },
    none)

/-- State mutation that survives a `calculate_forcings` call with an
unrecognised `method`: the window means of lines 234–256 have been stored and
the zero arrays of lines 330–331 created when the `NameError` of line 333
fires (`ug_p` was never assigned); the advective and Coriolis tendencies are
untouched.  The second component records the raised error. -/
def calcFail (s : EraState) (n : ℕ) : EraState × Option String :=
  ({ s with
      thl_mean := some (winMean s.j s.i n s.thl),
      qt_mean := some (winMean s.j s.i n s.qt),
      u_mean := some (winMean s.j s.i n s.u),
      v_mean := some (winMean s.j s.i n s.v),
      p_mean := some (winMean s.j s.i n s.p),
      z_mean := some (winMean s.j s.i n s.z),
      ug := some 0, vg := some 0 },
    some "NameError: ug_p is not defined")

/-- Method dispatch of `calculate_forcings` (lines 262, 283): the string
comparisons of the `if`/`elif` chain select the stencil order; anything else
falls through to the failing path `calcFail`. -/
def calculate_forcings (s : EraState) (n : ℕ) (dx dy : ℚ) (method : String) :
    EraState × Option String :=
  if method = "2nd" then calcBranch FDMethod.ord2 s n dx dy
  else if method = "4th" then calcBranch FDMethod.ord4 s n dx dy
  else calcFail s n

/-- Concrete `Read_ERA` state used in witnesses and counterexamples: constant
unit winds and scalars, nearest gridpoint `(0, 0)`, Coriolis parameter `1`,
an ascending two-level pressure table, no forcing attribute set yet. -/
def testState : EraState :=
  { i := 0, j := 0, fc := 1,
    u := slab1, v := slab1, w := slab0, T := slab1, q := slab0,
    thl := slab1, qt := slab0, p := slab1, z := slab1, rho := slab1,
    z_p := fun _ => slab0, p_p := [1, 2],
    ps := slab1, wths := slab0, wqs := slab0, cc := slab0,
    z0m := slab1, z0h := slab1,
    lats := fun j => (j : ℚ), lons := fun i => (i : ℚ),
    thl_mean := none, qt_mean := none, u_mean := none, v_mean := none,
    p_mean := none, z_mean := none,
    dtthl_advec := none, dtqt_advec := none, dtu_advec := none,
    dtv_advec := none, ug := none, vg := none,
    dtu_coriolis := none, dtv_coriolis := none }

/-- Python slice semantics `a[s:e]` (step 1), which numpy applies to each
axis: a negative bound counts from the end of the sequence, bounds are
clipped to the valid range, and an out-of-range slice silently shrinks — no
exception is ever raised by slicing. -/
def pySlice {α : Type} (a : List α) (s e : ℤ) : List α :=
  let L : ℤ := a.length
  let s1 : ℤ := if s < 0 then max (L + s) 0 else min s L
  let e1 : ℤ := if e < 0 then max (L + e) 0 else min e L
  (a.drop s1.toNat).take (e1 - s1).toNat

/-- The `center4d`/`center3d` averaging window of `calculate_forcings`
(lines 217–224) on a finite lat×lon grid stored as a row-major list of rows:
row slice `jstart:jend` and column slice `istart:iend` with
`jstart = j - n_av`, `jend = j + n_av + 1`, `istart = i - n_av`,
`iend = i + n_av + 1`, under Python slice semantics. -/
def windowSlab (g : List (List ℚ)) (jc ic : ℤ) (n : ℕ) : List (List ℚ) :=
  (pySlice g (jc - n) (jc + n + 1)).map fun row => pySlice row (ic - n) (ic + n + 1)

/-- The `.mean(axis=(2,3))` of lines 234–256 over the selected window on the
finite grid; `none` models the `nan` that `np.mean` returns (with only a
runtime warning) on an empty selection.  There is no error path. -/
def windowMeanList (g : List (List ℚ)) (jc ic : ℤ) (n : ℕ) : Option ℚ :=
  let cells := (windowSlab g jc ic n).flatten
  if cells.length = 0 then none else some (cells.sum / (cells.length : ℚ))

/-- Window means stored by `calculate_forcings` (lines 236–239) for the four
advected scalars on the finite grid — forcing arrays set on the object. -/
def forcingMeansList (thl qt u v : List (List ℚ)) (jc ic : ℤ) (n : ℕ) :
    Option ℚ × Option ℚ × Option ℚ × Option ℚ :=
  (windowMeanList thl jc ic n, windowMeanList qt jc ic n,
    windowMeanList u jc ic n, windowMeanList v jc ic n)

/-- Concrete 3×3 all-ones grid. -/
def ones3 : List (List ℚ) := [[1, 1, 1], [1, 1, 1], [1, 1, 1]]

theorem winMean_congr {f g : Slab} (jc ic : ℤ) (n : ℕ) (h : ∀ j i, f j i = g j i) :
    winMean jc ic n f = winMean jc ic n g := by
  unfold winMean
  congr 1
  exact Finset.sum_congr rfl fun j _ => Finset.sum_congr rfl fun i _ => h j i

/-- C1 (counterexample): with `u = 0`, `v = 1`, `S(j,i) = j`, window center
`(0,0)`, `n_av = 0`, `dx = dy = 1` and the 2nd-order stencil, the tendency the
code computes (`-1`) differs from the spec's
`mean(-u·dS/dx - v·dS/dy)` (`+1`): the code's `v` term enters through a double
negation, flipping its sign. -/
theorem dt_advec_ne_spec :
    dt_advec FDMethod.ord2 slab0 slab1 slabJ 0 0 0 1 1 ≠
      advec_spec FDMethod.ord2 slab0 slab1 slabJ 0 0 0 1 1 := by
  simp only [dt_advec, advec_spec, winMean, ddx, ddy, grad2c, slab0, slab1, slabJ,
    Nat.cast_zero, sub_zero, add_zero, Finset.Icc_self, Finset.sum_singleton]
  norm_num

/-- C1 (amended): for every scalar slab `S`, both stencil orders, every window
and averaging radius, the advective tendency computed by `calculate_forcings`
equals the arithmetic window mean of `-u·(dS/dx) + v·(dS/dy)`, i.e. the spec's
formula with the sign of the `v` term flipped, where `dS/dx` and `dS/dy` are
the centered differences of the chosen order evaluated pointwise with the
co-located wind components (`ddy` being the same y-operator the geostrophic
wind uses). -/
theorem dt_advec_eq_flipped_spec (m : FDMethod) (u v S : Slab) (jc ic : ℤ)
    (n : ℕ) (dx dy : ℚ) :
    dt_advec m u v S jc ic n dx dy =
      winMean jc ic n (fun j i => -(u j i) * ddx m S dx j i + v j i * ddy m S dy j i) := by
  unfold dt_advec
  exact winMean_congr jc ic n fun j i => by ring

/-- C2: for both stencil orders, every pressure-level slab `Zp`, every window
and averaging radius, the geostrophic wind computed by `calculate_forcings` is
the window mean of `ug = -(g/f)·(dZ/dy)` and `vg = (g/f)·(dZ/dx)` with the
same finite-difference order as the advective tendencies, and the Coriolis
parameter used is `f = 2·Ω·sin(lat)` at the center latitude (with `sinlat`
the value of `np.sin(np.deg2rad(lat))`, whose sign is the hemisphere's). -/
theorem geostrophic_wind_matches_spec (m : FDMethod) (Zp : Slab) (jc ic : ℤ)
    (n : ℕ) (dx dy sinlat : ℚ) :
    ug_p m Zp jc ic n dy (coriolis_parameter sinlat) =
        ug_spec m Zp jc ic n dy (coriolis_parameter sinlat) ∧
      vg_p m Zp jc ic n dx (coriolis_parameter sinlat) =
        vg_spec m Zp jc ic n dx (coriolis_parameter sinlat) ∧
      coriolis_parameter sinlat = 2 * Omega * sinlat := by
  refine ⟨?_, rfl, by rw [coriolis_parameter, Omega]⟩
  unfold ug_p ug_spec
  exact winMean_congr jc ic n fun j i => by ring

theorem linterp_le (x0 y0 x1 y1 : ℚ) (tl : List (ℚ × ℚ)) (x : ℚ) (hx : x ≤ x1) :
    linterp ((x0, y0) :: (x1, y1) :: tl) x = y0 + (x - x0) * (y1 - y0) / (x1 - x0) := by
  cases tl with
  | nil => rfl
  | cons q r =>
    show (if x ≤ x1 then y0 + (x - x0) * (y1 - y0) / (x1 - x0)
        else linterp ((x1, y1) :: q :: r) x) = _
    rw [if_pos hx]

theorem linterp_node (l : List (ℚ × ℚ)) (hs : (l.map Prod.fst).Sorted (· < ·))
    (xk yk : ℚ) (hmem : (xk, yk) ∈ l) : linterp l xk = yk := by
  induction l with
  | nil => cases hmem
  | cons a tl ih =>
    obtain ⟨a1, a2⟩ := a
    cases tl with
    | nil =>
      have h := List.mem_singleton.mp hmem
      rw [Prod.mk.injEq] at h
      obtain ⟨rfl, rfl⟩ := h
      rfl
    | cons b tl2 =>
      obtain ⟨b1, b2⟩ := b
      have hcons := List.sorted_cons.mp hs
      have hab : a1 < b1 := hcons.1 b1 (List.mem_cons_self _ _)
      rcases List.mem_cons.mp hmem with h | hmem2
      · rw [Prod.mk.injEq] at h
        obtain ⟨rfl, rfl⟩ := h
        rw [linterp_le _ _ _ _ _ _ hab.le, sub_self, zero_mul, zero_div, add_zero]
      · rcases List.mem_cons.mp hmem2 with h | hmem3
        · rw [Prod.mk.injEq] at h
          obtain ⟨rfl, rfl⟩ := h
          have hne : xk - a1 ≠ 0 := sub_ne_zero.mpr hab.ne'
          rw [linterp_le _ _ _ _ _ _ le_rfl, mul_div_cancel_left₀ _ hne]
          ring
        · cases tl2 with
          | nil => cases hmem3
          | cons q r =>
            have hxk : b1 < xk := by
              have hs1 := (List.sorted_cons.mp hcons.2).1
              exact hs1 xk (List.mem_map.mpr ⟨(xk, yk), hmem3, rfl⟩)
            rw [show linterp ((a1, a2) :: (b1, b2) :: q :: r) xk =
                  (if xk ≤ b1 then a2 + (xk - a1) * (b2 - a2) / (b1 - a1)
                    else linterp ((b1, b2) :: q :: r) xk) from rfl,
              if_neg (not_le.mpr hxk)]
            exact ih hcons.2 hmem2

theorem lastTwo_snd_mem (l : List (ℚ × ℚ)) :
    ∀ c d a b : ℚ × ℚ, lastTwo (c :: d :: l) = some (a, b) → b ∈ d :: l := by
  induction l with
  | nil =>
    intro c d a b h
    simp only [lastTwo, Option.some.injEq, Prod.mk.injEq] at h
    obtain ⟨-, rfl⟩ := h
    exact List.mem_cons_self _ _
  | cons q r ih =>
    intro c d a b h
    exact List.mem_cons_of_mem _ (ih d q a b h)

theorem linterp_beyond (l : List (ℚ × ℚ)) :
    ∀ a b : ℚ × ℚ, ∀ x : ℚ, (l.map Prod.fst).Sorted (· < ·) →
      lastTwo l = some (a, b) → b.1 ≤ x →
      linterp l x = a.2 + (x - a.1) * (b.2 - a.2) / (b.1 - a.1) := by
  induction l with
  | nil => intro a b x _ h; exact Option.noConfusion h
  | cons c tl ih =>
    cases tl with
    | nil => intro a b x _ h; exact Option.noConfusion h
    | cons d tl2 =>
      intro a b x hs h hx
      obtain ⟨c1, c2⟩ := c
      obtain ⟨d1, d2⟩ := d
      cases tl2 with
      | nil =>
        simp only [lastTwo, Option.some.injEq, Prod.mk.injEq] at h
        obtain ⟨rfl, rfl⟩ := h
        rfl
      | cons e tl3 =>
        have h' : lastTwo ((d1, d2) :: e :: tl3) = some (a, b) := h
        have hmem2 : b ∈ e :: tl3 := lastTwo_snd_mem tl3 (d1, d2) e a b h'
        have hd1b : d1 < b.1 := by
          have hs1 := (List.sorted_cons.mp (List.sorted_cons.mp hs).2).1
          exact hs1 b.1 (List.mem_map.mpr ⟨b, hmem2, rfl⟩)
        rw [show linterp ((c1, c2) :: (d1, d2) :: e :: tl3) x =
              (if x ≤ d1 then c2 + (x - c1) * (d2 - c2) / (d1 - c1)
                else linterp ((d1, d2) :: e :: tl3) x) from rfl,
          if_neg (not_le.mpr (lt_of_lt_of_le hd1b hx))]
        exact ih a b x (List.sorted_cons.mp hs).2 h' hx

/-- C3: the per-time-step map `interp1d(p_p, ug_p, fill_value='extrapolate')`
putting the geostrophic wind onto the model-level mean pressures is the
identity at an exact match — a query pressure equal to a node of the
(ascending) pressure table reproduces that node's geostrophic wind
unchanged — and beyond either end of the table the value is the linear
extrapolation of the outermost segment. -/
theorem geo_interpolation_exact_and_extrapolates
    (c d : ℚ × ℚ) (rest : List (ℚ × ℚ)) (a b : ℚ × ℚ) (pk w qlo qhi : ℚ)
    (hs : ((c :: d :: rest).map Prod.fst).Sorted (· < ·))
    (hmem : (pk, w) ∈ c :: d :: rest)
    (hlo : qlo ≤ c.1)
    (hlast : lastTwo (c :: d :: rest) = some (a, b))
    (hhi : b.1 ≤ qhi) :
    linterp (c :: d :: rest) pk = w ∧
      linterp (c :: d :: rest) qlo = c.2 + (qlo - c.1) * (d.2 - c.2) / (d.1 - c.1) ∧
      linterp (c :: d :: rest) qhi = a.2 + (qhi - a.1) * (b.2 - a.2) / (b.1 - a.1) := by
  refine ⟨linterp_node _ hs pk w hmem, ?_, linterp_beyond _ a b qhi hs hlast hhi⟩
  obtain ⟨c1, c2⟩ := c
  obtain ⟨d1, d2⟩ := d
  have hcd : c1 < d1 := (List.sorted_cons.mp hs).1 d1 (List.mem_cons_self _ _)
  exact linterp_le _ _ _ _ _ _ (hlo.trans hcd.le)

/-- Witness for C3 on the concrete ascending table
`[(1, 10), (2, 20), (3, 30)]`: querying at the node `2` returns `20`
unchanged, below the range (at `0`) the first segment is extrapolated to `0`,
above the range (at `4`) the last segment is extrapolated to `40`. -/
theorem geo_interpolation_witness :
    (([((1 : ℚ), (10 : ℚ)), (2, 20), (3, 30)].map Prod.fst).Sorted (· < ·)) ∧
      ((2 : ℚ), (20 : ℚ)) ∈ [((1 : ℚ), (10 : ℚ)), (2, 20), (3, 30)] ∧
      (0 : ℚ) ≤ 1 ∧
      lastTwo [((1 : ℚ), (10 : ℚ)), (2, 20), (3, 30)] = some ((2, 20), (3, 30)) ∧
      (3 : ℚ) ≤ 4 ∧
      (linterp [((1 : ℚ), (10 : ℚ)), (2, 20), (3, 30)] 2 = 20 ∧
        linterp [((1 : ℚ), (10 : ℚ)), (2, 20), (3, 30)] 0 =
          10 + ((0 : ℚ) - 1) * (20 - 10) / (2 - 1) ∧
        linterp [((1 : ℚ), (10 : ℚ)), (2, 20), (3, 30)] 4 =
          20 + ((4 : ℚ) - 2) * (30 - 20) / (3 - 2)) :=
  ⟨by decide, by decide, by decide, by decide, by decide,
    geo_interpolation_exact_and_extrapolates (1, 10) (2, 20) [(3, 30)]
      (2, 20) (3, 30) 2 20 0 4 (by decide) (by decide) (by decide) (by decide) (by decide)⟩

/-- C5: for every (time, lat, lon) column and every full level `k`, the
full-level pressure and geopotential height computed at dataset load are the
arithmetic means (not log-means) of the two bounding half-level values:
`p[k] = (ph[k] + ph[k+1]) / 2` and `z[k] = (zh[k] + zh[k+1]) / 2`. -/
theorem full_levels_are_arithmetic_means (ph zh : ℕ → ℚ) (k : ℕ) :
    p_full ph k = (ph k + ph (k + 1)) / 2 ∧ z_full zh k = (zh k + zh (k + 1)) / 2 :=
  ⟨by unfold p_full; ring, by unfold z_full; ring⟩

/-- C8: whenever the selected analysis and forecast time axes differ at any
position, dataset ingestion fails synchronously with the time-sync assertion
error, and the error is not recovered internally — it propagates unchanged
out of the ingestion step. -/
theorem mismatched_times_fail (time time_fc : List ℚ) (idx : ℕ)
    (h : time.get? idx ≠ time_fc.get? idx) :
    ingestTimes time time_fc =
      Except.error "Analysis and forecast times are not synced" := by
  have hne : time ≠ time_fc := fun he => h (by rw [he])
  unfold ingestTimes checkTimesSynced
  rw [if_neg hne]

/-- Witness for C8 at the concrete time axes `[0, 1]` and `[0, 2]`, which
differ at position `1`. -/
theorem mismatched_times_fail_witness :
    ([(0 : ℚ), 1].get? 1 ≠ [(0 : ℚ), 2].get? 1) ∧
      ingestTimes [(0 : ℚ), 1] [(0 : ℚ), 2] =
        Except.error "Analysis and forecast times are not synced" :=
  ⟨by decide, mismatched_times_fail [(0 : ℚ), 1] [(0 : ℚ), 2] 1 (by decide)⟩

/-- C10 (counterexample): the empty `'ERA5_path'` value does not end with
`'/'`, yet `Read_ERA.__init__` does not append a slash to it: `path[-1]`
raises `IndexError` (modelled as `none`), so the claim fails at this input. -/
theorem empty_path_not_appended : read_era_path [] ≠ some ([] ++ ['/']) := by
  decide

/-- C10 (amended): for every NON-EMPTY `'ERA5_path'` value, both
`Read_ERA.__init__` and `download_ERA5` (the latter once the directory check
passes) update the caller's settings dictionary in place: a value not ending
with `'/'` gets `'/'` appended and a value already ending with `'/'` is kept
unchanged; the empty value instead raises `IndexError` in `Read_ERA.__init__`
and makes `download_ERA5` exit at the preceding directory check. -/
theorem era5_path_normalisation (path : List Char) (hne : path ≠ []) :
    read_era_path path =
        some (if path.getLast? = some '/' then path else path ++ ['/']) ∧
      download_era_path true path = read_era_path path := by
  refine ⟨?_, rfl⟩
  have h1 : path.getLast?.isSome := List.getLast?_isSome.mpr hne
  obtain ⟨ch, hc⟩ := Option.isSome_iff_exists.mp h1
  unfold read_era_path
  rw [hc]
  by_cases h : ch = '/'
  · subst h
    simp
  · simp [h]

/-- Witness for C10 (amended) at the concrete paths `"ab"` (slash appended)
and `"a/"` (kept unchanged). -/
theorem era5_path_normalisation_witness :
    ((['a', 'b'] : List Char) ≠ [] ∧
        read_era_path ['a', 'b'] =
            some (if (['a', 'b'] : List Char).getLast? = some '/' then ['a', 'b']
              else ['a', 'b'] ++ ['/']) ∧
          download_era_path true ['a', 'b'] = read_era_path ['a', 'b']) ∧
      ((['a', '/'] : List Char) ≠ [] ∧
        read_era_path ['a', '/'] =
            some (if (['a', '/'] : List Char).getLast? = some '/' then ['a', '/']
              else ['a', '/'] ++ ['/']) ∧
          download_era_path true ['a', '/'] = read_era_path ['a', '/']) :=
  ⟨⟨by decide, era5_path_normalisation ['a', 'b'] (by decide)⟩,
    ⟨by decide, era5_path_normalisation ['a', '/'] (by decide)⟩⟩

/-- C4: for both supported stencil orders, the Coriolis momentum tendencies
stored by `calculate_forcings` are `du/dt = +f·(v_mean − vg)` and
`dv/dt = −f·(u_mean − ug)`, where `u_mean`, `v_mean` are the window-averaged
winds and `ug`, `vg` the model-level geostrophic wind stored by the same
call. -/
theorem coriolis_tendency_correct (s : EraState) (n : ℕ) (dx dy : ℚ)
    (method : String) (hm : method = "2nd" ∨ method = "4th") :
    ∃ ugv vgv : ℚ,
      (calculate_forcings s n dx dy method).1.ug = some ugv ∧
        (calculate_forcings s n dx dy method).1.vg = some vgv ∧
        (calculate_forcings s n dx dy method).1.u_mean =
          some (winMean s.j s.i n s.u) ∧
        (calculate_forcings s n dx dy method).1.v_mean =
          some (winMean s.j s.i n s.v) ∧
        (calculate_forcings s n dx dy method).1.dtu_coriolis =
          some (s.fc * (winMean s.j s.i n s.v - vgv)) ∧
        (calculate_forcings s n dx dy method).1.dtv_coriolis =
          some (-s.fc * (winMean s.j s.i n s.u - ugv)) := by
  rcases hm with rfl | rfl
  · unfold calculate_forcings
    rw [if_pos rfl]
    exact ⟨_, _, rfl, rfl, rfl, rfl, rfl, rfl⟩
  · unfold calculate_forcings
    rw [if_neg (by decide), if_pos rfl]
    exact ⟨_, _, rfl, rfl, rfl, rfl, rfl, rfl⟩

/-- Witness for C4 at the concrete state `testState`, `n_av = 0`,
`dx = dy = 1` and `method = '2nd'`. -/
theorem coriolis_tendency_correct_witness :
    (("2nd" : String) = "2nd" ∨ ("2nd" : String) = "4th") ∧
      (∃ ugv vgv : ℚ,
        (calculate_forcings testState 0 1 1 "2nd").1.ug = some ugv ∧
          (calculate_forcings testState 0 1 1 "2nd").1.vg = some vgv ∧
          (calculate_forcings testState 0 1 1 "2nd").1.u_mean =
            some (winMean testState.j testState.i 0 testState.u) ∧
          (calculate_forcings testState 0 1 1 "2nd").1.v_mean =
            some (winMean testState.j testState.i 0 testState.v) ∧
          (calculate_forcings testState 0 1 1 "2nd").1.dtu_coriolis =
            some (testState.fc * (winMean testState.j testState.i 0 testState.v - vgv)) ∧
          (calculate_forcings testState 0 1 1 "2nd").1.dtv_coriolis =
            some (-testState.fc * (winMean testState.j testState.i 0 testState.u - ugv))) :=
  ⟨Or.inl rfl, coriolis_tendency_correct testState 0 1 1 "2nd" (Or.inl rfl)⟩

/-- C7 (counterexample): calling `calculate_forcings` with the unsupported
method `'box'` on a concrete state does produce results: the window means are
computed and stored (`thl_mean = 1`) and the zero arrays `ug`, `vg` are
created before the call aborts, and the abort is a `NameError` at the
interpolation step (line 333), not an unsupported-method error at the
dispatch point — so the claim that the computation fails at the point of
violation with no forcing results produced is false. -/
theorem unsupported_method_produces_partial_results :
    (calculate_forcings testState 0 1 1 "box").1.thl_mean = some 1 ∧
      (calculate_forcings testState 0 1 1 "box").1.ug = some 0 ∧
      (calculate_forcings testState 0 1 1 "box").1.dtthl_advec = none ∧
      (calculate_forcings testState 0 1 1 "box").2 =
        some "NameError: ug_p is not defined" := by
  unfold calculate_forcings
  rw [if_neg (by decide), if_neg (by decide)]
  refine ⟨?_, rfl, rfl, rfl⟩
  show some (winMean testState.j testState.i 0 testState.thl) = some 1
  norm_num [testState, winMean, slab1, Finset.Icc_self, Finset.sum_singleton]

/-- C7 (amended): `'2nd'` and `'4th'` are the only supported methods, and any
other method value makes `calculate_forcings` fail — but with a `NameError`
raised at the geostrophic-interpolation step (line 333, `ug_p` never
assigned) rather than an eager unsupported-method check, and only after the
window-mean fields and the zero-initialised `ug`, `vg` have been stored on
the object, so partial results are produced; the advective and Coriolis
tendencies are never set. -/
theorem unsupported_method_fails_late (s : EraState) (n : ℕ) (dx dy : ℚ)
    (method : String) (h2 : method ≠ "2nd") (h4 : method ≠ "4th") :
    (calculate_forcings s n dx dy method).2 =
        some "NameError: ug_p is not defined" ∧
      (calculate_forcings s n dx dy method).1.thl_mean =
        some (winMean s.j s.i n s.thl) ∧
      (calculate_forcings s n dx dy method).1.ug = some 0 ∧
      (calculate_forcings s n dx dy method).1.vg = some 0 ∧
      (calculate_forcings s n dx dy method).1.dtthl_advec = s.dtthl_advec ∧
      (calculate_forcings s n dx dy method).1.dtqt_advec = s.dtqt_advec ∧
      (calculate_forcings s n dx dy method).1.dtu_advec = s.dtu_advec ∧
      (calculate_forcings s n dx dy method).1.dtv_advec = s.dtv_advec ∧
      (calculate_forcings s n dx dy method).1.dtu_coriolis = s.dtu_coriolis ∧
      (calculate_forcings s n dx dy method).1.dtv_coriolis = s.dtv_coriolis := by
  unfold calculate_forcings
  rw [if_neg h2, if_neg h4]
  exact ⟨rfl, rfl, rfl, rfl, rfl, rfl, rfl, rfl, rfl, rfl⟩

/-- Witness for C7 (amended) at the concrete state `testState` with the
unsupported method `'box'`. -/
theorem unsupported_method_fails_late_witness :
    (("box" : String) ≠ "2nd") ∧ (("box" : String) ≠ "4th") ∧
      ((calculate_forcings testState 0 1 1 "box").2 =
          some "NameError: ug_p is not defined" ∧
        (calculate_forcings testState 0 1 1 "box").1.thl_mean =
          some (winMean testState.j testState.i 0 testState.thl) ∧
        (calculate_forcings testState 0 1 1 "box").1.ug = some 0 ∧
        (calculate_forcings testState 0 1 1 "box").1.vg = some 0 ∧
        (calculate_forcings testState 0 1 1 "box").1.dtthl_advec = testState.dtthl_advec ∧
        (calculate_forcings testState 0 1 1 "box").1.dtqt_advec = testState.dtqt_advec ∧
        (calculate_forcings testState 0 1 1 "box").1.dtu_advec = testState.dtu_advec ∧
        (calculate_forcings testState 0 1 1 "box").1.dtv_advec = testState.dtv_advec ∧
        (calculate_forcings testState 0 1 1 "box").1.dtu_coriolis = testState.dtu_coriolis ∧
        (calculate_forcings testState 0 1 1 "box").1.dtv_coriolis = testState.dtv_coriolis) :=
  ⟨by decide, by decide,
    unsupported_method_fails_late testState 0 1 1 "box" (by decide) (by decide)⟩

/-- C9: `calculate_forcings` never modifies the source gridded fields or the
coordinate axes: for every state, averaging radius, grid spacing and method
(supported or not), all ingested fields and axes are identical before and
after the call; only the derived mean and forcing attributes are written. -/
theorem calculate_forcings_preserves_sources (s : EraState) (n : ℕ)
    (dx dy : ℚ) (method : String) :
    (calculate_forcings s n dx dy method).1.i = s.i ∧
      (calculate_forcings s n dx dy method).1.j = s.j ∧
      (calculate_forcings s n dx dy method).1.fc = s.fc ∧
      (calculate_forcings s n dx dy method).1.u = s.u ∧
      (calculate_forcings s n dx dy method).1.v = s.v ∧
      (calculate_forcings s n dx dy method).1.w = s.w ∧
      (calculate_forcings s n dx dy method).1.T = s.T ∧
      (calculate_forcings s n dx dy method).1.q = s.q ∧
      (calculate_forcings s n dx dy method).1.thl = s.thl ∧
      (calculate_forcings s n dx dy method).1.qt = s.qt ∧
      (calculate_forcings s n dx dy method).1.p = s.p ∧
      (calculate_forcings s n dx dy method).1.z = s.z ∧
      (calculate_forcings s n dx dy method).1.rho = s.rho ∧
      (calculate_forcings s n dx dy method).1.z_p = s.z_p ∧
      (calculate_forcings s n dx dy method).1.p_p = s.p_p ∧
      (calculate_forcings s n dx dy method).1.ps = s.ps ∧
      (calculate_forcings s n dx dy method).1.wths = s.wths ∧
      (calculate_forcings s n dx dy method).1.wqs = s.wqs ∧
      (calculate_forcings s n dx dy method).1.cc = s.cc ∧
      (calculate_forcings s n dx dy method).1.z0m = s.z0m ∧
      (calculate_forcings s n dx dy method).1.z0h = s.z0h ∧
      (calculate_forcings s n dx dy method).1.lats = s.lats ∧
      (calculate_forcings s n dx dy method).1.lons = s.lons := by
  unfold calculate_forcings
  by_cases h2 : method = "2nd"
  · rw [if_pos h2]
    exact ⟨rfl, rfl, rfl, rfl, rfl, rfl, rfl, rfl, rfl, rfl, rfl, rfl, rfl, rfl, rfl,
      rfl, rfl, rfl, rfl, rfl, rfl, rfl, rfl⟩
  · rw [if_neg h2]
    by_cases h4 : method = "4th"
    · rw [if_pos h4]
      exact ⟨rfl, rfl, rfl, rfl, rfl, rfl, rfl, rfl, rfl, rfl, rfl, rfl, rfl, rfl, rfl,
        rfl, rfl, rfl, rfl, rfl, rfl, rfl, rfl⟩
    · rw [if_neg h4]
      exact ⟨rfl, rfl, rfl, rfl, rfl, rfl, rfl, rfl, rfl, rfl, rfl, rfl, rfl, rfl, rfl,
        rfl, rfl, rfl, rfl, rfl, rfl, rfl, rfl⟩

theorem pySlice_in_bounds {α : Type} (l : List α) (a b : ℕ) (h : a + b ≤ l.length) :
    pySlice l (a : ℤ) ((a + b : ℕ) : ℤ) = (l.drop a).take b := by
  simp only [pySlice]
  rw [if_neg (by omega), if_neg (by omega), min_eq_left (by omega),
    min_eq_left (by omega), Int.toNat_natCast,
    show ((a + b : ℕ) : ℤ) - (a : ℤ) = ((b : ℕ) : ℤ) from by push_cast; ring,
    Int.toNat_natCast]

theorem sum_drop_take (l : List ℚ) (a : ℕ) :
    ∀ b : ℕ, a + b ≤ l.length →
      ((l.drop a).take b).sum = ∑ k in Finset.range b, l.getD (a + k) 0 := by
  intro b
  induction b with
  | zero => intro _; simp
  | succ b ih =>
    intro h
    rw [List.take_succ, List.sum_append, ih (by omega), Finset.sum_range_succ]
    congr 1
    have hlt : a + b < l.length := by omega
    rw [List.getElem?_drop, List.getElem?_eq_getElem hlt]
    simp [List.getD_eq_getElem?_getD, List.getElem?_eq_getElem hlt]

theorem sum_map_drop_take {α : Type} (l : List α) (f : α → ℚ) (dflt : α) (a : ℕ) :
    ∀ b : ℕ, a + b ≤ l.length →
      (((l.drop a).take b).map f).sum = ∑ k in Finset.range b, f (l.getD (a + k) dflt) := by
  intro b
  induction b with
  | zero => intro _; simp
  | succ b ih =>
    intro h
    rw [List.take_succ, List.map_append, List.sum_append, ih (by omega),
      Finset.sum_range_succ]
    congr 1
    have hlt : a + b < l.length := by omega
    rw [List.getElem?_drop, List.getElem?_eq_getElem hlt]
    simp [List.getD_eq_getElem?_getD, List.getElem?_eq_getElem hlt]

/-- C6 (counterexample): on a 3×3 grid with center `(1, 1)`, `n_av = 3` and
the 2nd-order margin 1, the window plus margin exceeds the grid extent on all
four sides, yet no out-of-bounds `ConfigurationError` is raised — no such
check (nor such an exception class) exists in the code: the negative bound
`jstart = -2` wraps to row 1, the overlong bound `jend = 5` clips to 3, and
window means over the silently clipped 2×2 region are produced and stored. -/
theorem out_of_bounds_window_still_produces_means :
    forcingMeansList ones3 ones3 ones3 ones3 1 1 3 =
      (some 1, some 1, some 1, some 1) := by
  have h1 : windowSlab ones3 1 1 3 = [[1, 1], [1, 1]] := rfl
  unfold forcingMeansList
  simp only [windowMeanList, h1]
  norm_num

/-- C6 (amended): `calculate_forcings` performs no bounds validation — an
out-of-range window is silently clipped or wrapped by the slice semantics and
means are still produced.  Only when the averaging window lies inside the
grid do the slices cover exactly the requested points: the stored mean is the
arithmetic mean of the `(2·n_av+1)²` grid values around the center. -/
theorem windowMeanList_in_bounds (g : List (List ℚ)) (C j0 i0 n : ℕ)
    (hrows : ∀ r ∈ g, r.length = C)
    (hj : j0 + (2 * n + 1) ≤ g.length) (hi : i0 + (2 * n + 1) ≤ C) :
    windowMeanList g ((j0 : ℤ) + n) ((i0 : ℤ) + n) n =
      some ((∑ dj in Finset.range (2 * n + 1), ∑ di in Finset.range (2 * n + 1),
          (g.getD (j0 + dj) []).getD (i0 + di) 0) / ((2 * n + 1 : ℚ) ^ 2)) := by
  have hrw : windowSlab g ((j0 : ℤ) + n) ((i0 : ℤ) + n) n =
      ((g.drop j0).take (2 * n + 1)).map fun row => (row.drop i0).take (2 * n + 1) := by
    unfold windowSlab
    rw [show ((j0 : ℤ) + n) - n = (j0 : ℤ) from by ring,
      show ((j0 : ℤ) + n) + n + 1 = ((j0 + (2 * n + 1) : ℕ) : ℤ) from by push_cast; ring,
      pySlice_in_bounds g j0 (2 * n + 1) hj]
    refine List.map_congr_left fun row hrow => ?_
    have hrg : row ∈ g := List.mem_of_mem_drop (List.mem_of_mem_take hrow)
    rw [show ((i0 : ℤ) + n) - n = (i0 : ℤ) from by ring,
      show ((i0 : ℤ) + n) + n + 1 = ((i0 + (2 * n + 1) : ℕ) : ℤ) from by push_cast; ring,
      pySlice_in_bounds row i0 (2 * n + 1) (by rw [hrows row hrg]; exact hi)]
  have hrowlen : ∀ row ∈ (g.drop j0).take (2 * n + 1),
      ((row.drop i0).take (2 * n + 1)).length = 2 * n + 1 := by
    intro row hrow
    have hrg : row ∈ g := List.mem_of_mem_drop (List.mem_of_mem_take hrow)
    rw [List.length_take, List.length_drop, hrows row hrg]
    exact min_eq_left (by omega)
  have hlen_rows : ((g.drop j0).take (2 * n + 1)).length = 2 * n + 1 := by
    rw [List.length_take, List.length_drop]
    exact min_eq_left (by omega)
  have hcells_len : ((windowSlab g ((j0 : ℤ) + n) ((i0 : ℤ) + n) n).flatten).length =
      (2 * n + 1) * (2 * n + 1) := by
    rw [hrw, List.length_flatten, List.map_map,
      show (List.length ∘ fun row : List ℚ => (row.drop i0).take (2 * n + 1)) =
        fun row : List ℚ => ((row.drop i0).take (2 * n + 1)).length from rfl,
      List.map_congr_left hrowlen, List.map_const', List.sum_replicate, hlen_rows,
      smul_eq_mul]
  have hcells_sum : ((windowSlab g ((j0 : ℤ) + n) ((i0 : ℤ) + n) n).flatten).sum =
      ∑ dj in Finset.range (2 * n + 1), ∑ di in Finset.range (2 * n + 1),
        (g.getD (j0 + dj) []).getD (i0 + di) 0 := by
    rw [hrw, List.sum_flatten, List.map_map]
    have hmap : ((g.drop j0).take (2 * n + 1)).map
          (List.sum ∘ fun row => (row.drop i0).take (2 * n + 1)) =
        ((g.drop j0).take (2 * n + 1)).map
          (fun row => ∑ di in Finset.range (2 * n + 1), row.getD (i0 + di) 0) :=
      List.map_congr_left fun row hrow => by
        have hrg : row ∈ g := List.mem_of_mem_drop (List.mem_of_mem_take hrow)
        exact sum_drop_take row i0 (2 * n + 1) (by rw [hrows row hrg]; exact hi)
    rw [hmap, sum_map_drop_take g _ [] j0 (2 * n + 1) hj]
  simp only [windowMeanList]
  rw [hcells_len, hcells_sum, if_neg (Nat.mul_ne_zero (by omega) (by omega)),
    show (((2 * n + 1) * (2 * n + 1) : ℕ) : ℚ) = ((2 * n + 1 : ℚ)) ^ 2 from by
      push_cast; ring]

/-- Witness for C6 (amended) on the 3×3 all-ones grid with the in-bounds
window `n_av = 1` around center `(1, 1)`: the mean is over exactly the nine
grid points. -/
theorem windowMeanList_in_bounds_witness :
    (∀ r ∈ ones3, r.length = 3) ∧ 0 + (2 * 1 + 1) ≤ ones3.length ∧
      0 + (2 * 1 + 1) ≤ 3 ∧
      windowMeanList ones3 ((0 : ℤ) + 1) ((0 : ℤ) + 1) 1 =
        some ((∑ dj in Finset.range (2 * 1 + 1), ∑ di in Finset.range (2 * 1 + 1),
            (ones3.getD (0 + dj) []).getD (0 + di) 0) / ((2 * 1 + 1 : ℚ) ^ 2)) :=
  ⟨by decide, by decide, by decide,
    windowMeanList_in_bounds ones3 3 0 0 1 (by decide) (by decide) (by decide)⟩

end LS2D
